import Mathlib

/-!
Verification of the queue/stream inspector, the statistics aggregators, the
access-control gate and the observations endpoint of the dashboard web
application (src/app.py), as a shallow embedding in Lean.

Conventions of the embedding:
* The key-value store handle (the Redis/Valkey client) is a parameter of the
  code under verification.  It is modelled as a finite association list of
  keys to typed values, enumerated in a fixed order (the order a cursor scan
  returns them in; Python's set iteration order is unspecified, and none of
  the statements proved here depend on it).
* The client interface is modelled exactly as `app.py` consumes it:
  `xpending`'s summary is indexable with index 0 the pending count and
  index 2 an oldest-age figure (lines 399 and 408), and `xpending_range`
  returns the pending entries oldest first with the age in milliseconds at
  index 1 of each entry (line 415).  `xinfo_groups` on an existing stream
  returns its (possibly empty) list of consumer groups, which is the
  documented server behaviour for XINFO GROUPS.
* Python floats produced by the code (ages divided by 1000, rates, bloat
  percentages) are modelled as exact rationals; at every concrete value used
  in this development the float computation of the source is exact, so the
  rational model agrees with it.
* Python `int(x)` on the nonnegative durations involved is `Int.floor`.
* A `None` or empty-string ("falsy") configuration entry is modelled as
  `Option.none`, matching the truthiness tests the source performs on them.
-/

namespace WebappSpec

/-! ## Redis-style glob matching

The scan patterns of `get_queue_info_with_timeout` (src/app.py lines 260-287)
use only literal characters and the `*` wildcard, so the matcher models that
fragment of the MATCH glob syntax (`?` and character classes are unused). -/

/-- Glob match of a pattern against a string, both as character lists.  A `*`
matches any (possibly empty) substring; any other pattern character matches
itself.  Structural recursion on the pattern. -/
def globMatch (p : List Char) : List Char → Bool :=
  match p with
  | [] => fun s => s.isEmpty
  | c :: ps => fun s =>
      if c = '*' then s.tails.any fun t => globMatch ps t
      else
        match s with
        | [] => false
        | d :: ds => c == d && globMatch ps ds

/-- The queue-name glob patterns of src/app.py lines 260-287, in source
order. -/
def queue_patterns : List String :=
  ["queue:*", "*:queue", "job:*", "task:*", "work:*", "pending:*",
   "processing:*", "celery", "rq:*", "bull:*", "kue:*", "snapshots",
   "snapshot:*", "frames", "frame:*", "images", "image:*", "messages",
   "message:*", "data", "data:*", "buffer", "buffer:*", "*_queue",
   "*_jobs", "*_tasks"]

/-- A key is a queue candidate when some configured pattern matches it
(the per-pattern SCAN loops of lines 309-324 accumulate exactly the keys
matching at least one pattern into the set `all_queue_keys`). -/
def matchesAnyPattern (k : String) : Bool :=
  queue_patterns.any fun p => globMatch p.toList k.toList

/-! ## The store model -/

/-- One consumer group of a stream, carrying what the inspected commands
return for it: `lag` is the `lag` field of XINFO GROUPS (line 388),
`pending` is index 0 of the XPENDING summary (line 399),
`summaryOldestAgeMs` is index 2 of that summary (line 408), and
`pendingAgesMs` lists the ages in milliseconds of the entries XPENDING-range
returns, oldest first (lines 403, 414-415); it is empty exactly when the
group's pending-entry list is empty. -/
structure ConsumerGroup where
  name : String
  lag : Nat
  pending : Nat
  summaryOldestAgeMs : Nat
  pendingAgesMs : List Nat
deriving DecidableEq

/-- A stream key's data: XLEN (line 372) and its consumer groups. -/
structure StreamData where
  totalLength : Nat
  groups : List ConsumerGroup
deriving DecidableEq

/-- A stored value as the scan distinguishes them by `client.type` (lines
333-368): only the container length is consulted for lists, sets and sorted
sets (`llen`, `scard`, `zcard`), so it is carried directly; `otherVal`
covers every type the scan skips (line 460-461). -/
inductive StoreValue where
  | listVal (len : Nat)
  | setVal (card : Nat)
  | zsetVal (card : Nat)
  | streamVal (sd : StreamData)
  | otherVal
deriving DecidableEq

/-- The key-value store handle: its keys with their values in scan order,
and the `instantaneous_ops_per_sec` figure of `client.info()` (line 501). -/
structure Store where
  entries : List (String × StoreValue)
  instantaneousOps : Nat

/-- Value of a key, if present. -/
def Store.lookup (st : Store) (k : String) : Option StoreValue :=
  (st.entries.find? fun e => e.fst == k).map Prod.snd

/-! ## The per-scan result data (src/app.py lines 368-459) -/

/-- One entry of a stream's `pel_details` (lines 405-418):
`oldest_message_age_seconds` is set only when the XPENDING range returned at
least one entry (lines 413-416); otherwise the later statistics loop reads
it as 0 via `.get` (line 490). -/
structure PelDetail where
  group_name : String
  total_pending : Nat
  oldest_age_ms : Nat
  sample_messages : Nat
  oldest_message_age_seconds : Option ℚ
deriving DecidableEq

/-- The `stream_info` dictionary built for a stream key (lines 373-437). -/
structure StreamInfo where
  total_length : Nat
  pending_count : Nat
  consumer_groups : List (String × Nat)
  pel_details : List PelDetail
  available_unread : Nat
deriving DecidableEq

/-- Container type tag recorded in a queue-detail entry. -/
inductive QueueType where
  | listQ
  | sortedSetQ
  | setQ
  | streamQ
deriving DecidableEq

/-- One entry of `queue_details` (lines 341-345, 352-356, 362-366,
454-459): `length` is the container length for non-streams and the
effective count for streams. -/
structure QueueDetail where
  name : String
  length : Nat
  qtype : QueueType
  stream_info : Option StreamInfo
deriving DecidableEq

/-- The `pel_detail` record built for one consumer group (lines 394-418).
The XPENDING summary is always truthy with four components in the client
interface (line 398's guard holds), so the record is built for every
group. -/
def mkPelDetail (g : ConsumerGroup) : PelDetail :=
  { group_name := g.name
    total_pending := g.pending
    oldest_age_ms := g.summaryOldestAgeMs
    sample_messages := g.pendingAgesMs.length
    oldest_message_age_seconds :=
      match g.pendingAgesMs with
      | [] => none
      | a :: _ => some ((a : ℚ) / 1000) }

/-- The `stream_info` dictionary after the group loop of lines 381-430:
`pending_count` sums the groups' XPENDING counts, `available_unread` sums
their lags.  A stream with no consumer groups takes the non-exceptional
path with an empty group list (XINFO GROUPS returns an empty list then), so
both sums are 0 and the `except` branch of lines 432-437 that would set
`pending_count = total_stream_length` is not taken. -/
def streamInfoOf (sd : StreamData) : StreamInfo :=
  { total_length := sd.totalLength
    pending_count := (sd.groups.map ConsumerGroup.pending).sum
    consumer_groups := sd.groups.map fun g => (g.name, g.lag)
    pel_details := sd.groups.map mkPelDetail
    available_unread := (sd.groups.map ConsumerGroup.lag).sum }

/-- The stream's effective count (lines 439-447): PEL plus undelivered lag
when the stream has consumer groups, the whole stream length otherwise. -/
def streamEffectiveCount (sd : StreamData) : Nat :=
  if 0 < ((streamInfoOf sd).consumer_groups).length then
    (streamInfoOf sd).pending_count + (streamInfoOf sd).available_unread
  else sd.totalLength

/-- Inspection of one candidate key (the body of the loop at lines
331-464): the contribution to `total_messages` and the `queue_details`
entry, or `none` when the key contributes nothing (zero-length non-stream
container, empty stream with zero effective count, or unsupported type). -/
def inspectKey (k : String) (v : StoreValue) : Option (Nat × QueueDetail) :=
  match v with
  | .listVal n => if 0 < n then some (n, ⟨k, n, .listQ, none⟩) else none
  | .zsetVal n => if 0 < n then some (n, ⟨k, n, .sortedSetQ, none⟩) else none
  | .setVal n => if 0 < n then some (n, ⟨k, n, .setQ, none⟩) else none
  | .streamVal sd =>
      let eff := streamEffectiveCount sd
      if 0 < sd.totalLength ∨ 0 < eff then
        some (eff, ⟨k, eff, .streamQ, some (streamInfoOf sd)⟩)
      else none
  | .otherVal => none

/-- The candidate loop of lines 331-464 over a list of key names:
accumulated `total_messages` and `queue_details` in encounter order.  A key
not in the store is skipped like any unsupported type. -/
def processKeys (st : Store) : List String → Nat × List QueueDetail
  | [] => (0, [])
  | k :: ks =>
    let rest := processKeys st ks
    match (st.lookup k).bind (inspectKey k) with
    | none => rest
    | some nd => (nd.fst + rest.fst, nd.snd :: rest.snd)

/-- Keys deduplicated keeping the first occurrence (the `set` of line
309). -/
def dedupKeys : List String → List String
  | [] => []
  | k :: ks => k :: (dedupKeys ks).filter fun x => x ≠ k

/-- All candidate keys: store keys matching some pattern, deduplicated. -/
def candidateKeys (st : Store) : List String :=
  dedupKeys ((st.entries.map Prod.fst).filter matchesAnyPattern)

/-- The candidates actually inspected: the first 50 (line 331). -/
def inspectedKeys (st : Store) : List String :=
  (candidateKeys st).take 50

/-- Stable insertion into a length-descending list: the inserted element
goes before existing elements of equal length, which is exactly how a
stable descending sort orders an element relative to later ones. -/
def insertDetail (x : QueueDetail) : List QueueDetail → List QueueDetail
  | [] => [x]
  | y :: ys => if y.length ≤ x.length then x :: y :: ys else y :: insertDetail x ys

/-- The stable sort by length descending of line 470
(`queue_details.sort(key=..., reverse=True)`; Python's sort is stable). -/
def sortDetails : List QueueDetail → List QueueDetail
  | [] => []
  | x :: xs => insertDetail x (sortDetails xs)

/-! ## PEL statistics over the collected details (lines 472-493) -/

/-- The `age_seconds` read at line 490: the recorded oldest-message age, or
0 when the record has none. -/
def pelDetailAgeSeconds (pd : PelDetail) : ℚ :=
  pd.oldest_message_age_seconds.getD 0

/-- The problem test of line 491: a positive pending count whose oldest
message is over 30 seconds old. -/
def pelDetailProblem (pd : PelDetail) : Bool :=
  decide (0 < pd.total_pending) && decide ((30 : ℚ) < pelDetailAgeSeconds pd)

/-- Accumulated PEL statistics of lines 472-493. -/
structure PelStats where
  total_pel_messages : Nat
  total_streams : Nat
  total_consumer_groups : Nat
  pel_problem_detected : Bool
  oldest_pel_age : ℚ

/-- The statistics loop of lines 479-493 (associativity/commutativity of
the accumulating operations lets it be written by recursion on the right):
only entries typed `stream` that carry a `stream_info` contribute. -/
def pelStats : List QueueDetail → PelStats
  | [] => ⟨0, 0, 0, false, 0⟩
  | q :: qs =>
    let s := pelStats qs
    match q.qtype, q.stream_info with
    | .streamQ, some info =>
        { total_pel_messages :=
            (info.pel_details.map PelDetail.total_pending).sum + s.total_pel_messages
          total_streams := s.total_streams + 1
          total_consumer_groups := info.consumer_groups.length + s.total_consumer_groups
          pel_problem_detected := info.pel_details.any pelDetailProblem || s.pel_problem_detected
          oldest_pel_age :=
            max ((info.pel_details.map pelDetailAgeSeconds).foldr max 0) s.oldest_pel_age }
    | _, _ => s

/-! ## Duration formatting and the assembled scan state (lines 496-522) -/

/-- A formatted duration: the seconds/minutes strings carry the truncated
integral value and the hours string the exact quotient whose one-decimal
rendering the source prints; `notAvailable` is the "N/A" default. -/
inductive EstTime where
  | notAvailable
  | seconds (n : ℤ)
  | minutes (n : ℤ)
  | hours (h : ℚ)
deriving DecidableEq

/-- The three-way formatting of lines 506-511 and 517-522 (`int()` on these
nonnegative values is the floor). -/
def formatDuration (estSeconds : ℚ) : EstTime :=
  if estSeconds < 60 then .seconds ⌊estSeconds⌋
  else if estSeconds < 3600 then .minutes ⌊estSeconds / 60⌋
  else .hours (estSeconds / 3600)

/-- Everything the success path of `get_queue_info_with_timeout` computes by
line 522: totals, the sorted detail list, the PEL statistics and the two
duration estimates. -/
structure ScanState where
  total_messages : Nat
  queue_details : List QueueDetail
  total_pel_messages : Nat
  total_streams : Nat
  total_consumer_groups : Nat
  pel_problem_detected : Bool
  oldest_pel_age : ℚ
  estimated_time : EstTime
  pel_backlog_time : EstTime

/-- The scan computation of src/app.py lines 289-522: pattern matching and
deduplication (309-324), the 50-key cap (331), per-key inspection
(333-464), the stable sort (470), the PEL statistics (472-493), the
throughput estimate — only computed when `instantaneous_ops_per_sec` is
positive (lines 501-511) — and the 16-seconds-per-message PEL backlog
estimate (513-522). -/
def scanCompute (st : Store) : ScanState :=
  let td := processKeys st (inspectedKeys st)
  let details := sortDetails td.snd
  let p := pelStats details
  { total_messages := td.fst
    queue_details := details
    total_pel_messages := p.total_pel_messages
    total_streams := p.total_streams
    total_consumer_groups := p.total_consumer_groups
    pel_problem_detected := p.pel_problem_detected
    oldest_pel_age := p.oldest_pel_age
    estimated_time :=
      if 0 < td.fst then
        if 0 < st.instantaneousOps then
          formatDuration ((td.fst : ℚ) / max 1 ((st.instantaneousOps : ℚ) / 2))
        else .notAvailable
      else .notAvailable
    pel_backlog_time :=
      if 0 < p.total_pel_messages then
        formatDuration ((16 * p.total_pel_messages : ℕ) : ℚ)
      else .notAvailable }

/-! ## The returned payload of `get_queue_info_with_timeout` -/

/-- The `total_messages_in_queues` value: a number on the (unreachable)
success path, or one of the two string sentinels `"Timeout"` / `"Error"`
(lines 576, 592) that mark the counts unavailable. -/
inductive CountValue where
  | count (n : Nat)
  | timeoutSentinel
  | errorSentinel
deriving DecidableEq

/-- The payload shape of `get_queue_info_with_timeout`: the fields present
in all three return branches, plus the success-only fields as options
(absent from the timeout and error payloads of lines 574-587 and
590-603). -/
structure QueueInfoResult where
  total_messages_in_queues : CountValue
  pel_messages : Option Nat
  pel_problem_indicator : Option Bool
  oldest_pending_age : Option ℚ
  stream_summary : Option (Nat × Nat)
  queue_details : List QueueDetail
  estimated_processing_time : EstTime

/-- The payload lines 537-570 would return from a scan state (top-10
truncation of the details at line 563; `pel_problem_indicator` is the
DETECTED/OK flag of line 547).  The code as written never reaches this
return: see `get_queue_info_with_timeout`. -/
def successPayload (s : ScanState) : QueueInfoResult :=
  { total_messages_in_queues := .count s.total_messages
    pel_messages := some s.total_pel_messages
    pel_problem_indicator := some s.pel_problem_detected
    oldest_pending_age := some s.oldest_pel_age
    stream_summary := some (s.total_streams, s.total_consumer_groups)
    queue_details := s.queue_details.take 10
    estimated_processing_time := s.estimated_time }

/-- The error payload of lines 590-603: sentinel count, empty details,
"N/A" estimate. -/
def errorPayload : QueueInfoResult :=
  ⟨.errorSentinel, none, none, none, none, [], .notAvailable⟩

/-- The timeout payload of lines 574-587. -/
def timeoutPayload : QueueInfoResult :=
  ⟨.timeoutSentinel, none, none, none, none, [], .notAvailable⟩

/-- src/app.py `get_queue_info_with_timeout`, lines 244-609, on a scan that
runs to the end of the key loop.  The completion log at line 524
interpolates `total_undelivered_messages` into an f-string, but that local
variable is only assigned at line 531, after the log; in Python a local
read before its assignment raises UnboundLocalError, so every scan that
reaches line 524 — i.e. every scan that does not already time out or fail —
jumps to the handler at line 588 and returns the error payload.  The
success payload of lines 537-570 is unreachable in the code as written. -/
def get_queue_info_with_timeout (st : Store) : QueueInfoResult :=
  let _ := scanCompute st
  errorPayload

/-! ## The access-control gate (src/app.py lines 109-176)

Configuration entries that Python reads with a truthiness test (`AUTH_PASSWORD`,
`SECURITY_TOKEN`) are `Option`s whose `none` covers both unset and empty. -/

/-- The security-relevant configuration entries (lines 82-85). -/
structure AuthConfig where
  auth_username : String
  auth_password : Option String
  allowed_ips : List String
  security_token : Option String

/-- The request data the gate consults: the forwarded-for header, the
transport peer address, the `token` query parameter, the raw Authorization
header, and the parsed basic-auth credentials (`request.authorization`). -/
structure HttpRequest where
  forwarded_for : Option String
  remote_addr : Option String
  query_token : Option String
  auth_header : Option String
  basic_auth : Option (String × String)

/-- Python `str.strip()` restricted to whitespace, as the source applies it
to address strings (line 134). -/
def pyStripWs (s : String) : String :=
  String.mk (((s.toList.dropWhile Char.isWhitespace).reverse.dropWhile
    Char.isWhitespace).reverse)

/-- Python `s.split(',')[0]` (line 134). -/
def firstCommaField (s : String) : String :=
  String.mk (s.toList.takeWhile fun c => c ≠ ',')

/-- The client address the whitelist check compares (lines 131-134): the
forwarded-for header when present, else the peer address; when truthy, its
first comma-separated field, stripped. -/
def normalizedClientIp (req : HttpRequest) : Option String :=
  let raw :=
    match req.forwarded_for with
    | some h => some h
    | none => req.remote_addr
  match raw with
  | none => none
  | some s => if s = "" then some s else some (pyStripWs (firstCommaField s))

/-- `check_ip_whitelist` of lines 126-137: pass when the configured list is
empty or all-falsy, else exact membership of the normalized client address
(a missing address is never a member). -/
def check_ip_whitelist (cfg : AuthConfig) (req : HttpRequest) : Bool :=
  if cfg.allowed_ips.isEmpty || cfg.allowed_ips.all fun ip => ip = "" then true
  else
    match normalizedClientIp req with
    | none => false
    | some ip => cfg.allowed_ips.contains ip

/-- Python `s.split(' ')[1]`: the characters between the first and second
space (line 150). -/
def secondSpaceField (s : String) : String :=
  String.mk (((s.toList.dropWhile fun c => c ≠ ' ').drop 1).takeWhile
    fun c => c ≠ ' ')

/-- The token taken from a `Bearer` Authorization header (lines 148-150). -/
def bearerToken (req : HttpRequest) : Option String :=
  match req.auth_header with
  | some h => if h.startsWith "Bearer " then some (secondSpaceField h) else none
  | none => none

/-- The token the check compares (lines 144-150): the `token` query
parameter when truthy, else the bearer token. -/
def providedToken (req : HttpRequest) : Option String :=
  match req.query_token with
  | some t => if t = "" then bearerToken req else some t
  | none => bearerToken req

/-- `check_security_token` of lines 139-152: pass when no token is
configured, else exact equality with the provided token.  (When neither
query nor header carries a token the Python comparison is `None == token`,
i.e. false, which the `Option` equality reproduces.) -/
def check_security_token (cfg : AuthConfig) (req : HttpRequest) : Bool :=
  match cfg.security_token with
  | none => true
  | some tok => providedToken req == some tok

/-- `check_auth` of lines 110-116. -/
def check_auth (cfg : AuthConfig) (u p : String) : Bool :=
  match cfg.auth_password with
  | none => true
  | some pw => u == cfg.auth_username && p == pw

/-- What the decorated handler produces: one of the three denials, or the
wrapped route's own result — the handler body runs only in the `handled`
case, so a failing check short-circuits before any aggregator. -/
inductive GateOutcome (α : Type) where
  | ipDenied
  | tokenDenied
  | authRequired
  | handled (a : α)
deriving DecidableEq

/-- HTTP status and whether a `WWW-Authenticate` challenge is sent, per
outcome: 403 for the IP and token denials (lines 161, 166), 401 with the
challenge for missing/bad credentials (lines 118-124); none for a handled
request. -/
def gateStatus {α : Type} : GateOutcome α → Option (Nat × Bool)
  | .ipDenied => some (403, false)
  | .tokenDenied => some (403, false)
  | .authRequired => some (401, true)
  | .handled _ => none

/-- The `requires_auth` decorator of lines 154-176: IP whitelist, then
security token, then — only when a password is configured — basic-auth
credentials, short-circuiting on the first failure. -/
def requires_auth {α : Type} (cfg : AuthConfig) (req : HttpRequest)
    (handler : α) : GateOutcome α :=
  if check_ip_whitelist cfg req = false then .ipDenied
  else if check_security_token cfg req = false then .tokenDenied
  else
    match cfg.auth_password with
    | some _ =>
      match req.basic_auth with
      | none => .authRequired
      | some up =>
        if check_auth cfg up.fst up.snd then .handled handler else .authRequired
    | none => .handled handler

/-! The gate as the specification describes it, for the refinement claim:
"(1) IP allow-list check (empty list ⇒ pass) — the check uses the first
address in a forwarded-for header if present, else the transport-level peer
address; (2) bearer/query security-token check (absent configured token ⇒
pass); (3) basic-auth credential check (absent configured password ⇒
pass)", in that order, short-circuiting. -/

/-- Spec wording: the address checked is the first entry of the
forwarded-for header if present, else the peer address. -/
def specCheckedAddress (req : HttpRequest) : Option String :=
  match req.forwarded_for with
  | some h => some (pyStripWs (firstCommaField h))
  | none => req.remote_addr

/-- Spec wording of check (1): an empty allow-list passes any IP, else the
checked address must be listed. -/
def specIpAllowed (cfg : AuthConfig) (req : HttpRequest) : Bool :=
  cfg.allowed_ips.isEmpty ||
    match specCheckedAddress req with
    | none => false
    | some ip => cfg.allowed_ips.contains ip

/-- Spec wording of check (2): no configured token passes; otherwise the
token provided via query parameter or bearer header must equal it. -/
def specTokenOk (cfg : AuthConfig) (req : HttpRequest) : Bool :=
  match cfg.security_token with
  | none => true
  | some tok => providedToken req == some tok

/-- Spec wording of check (3): no configured password passes; otherwise the
basic-auth credentials must be exactly the configured username/password
pair. -/
def specCredsOk (cfg : AuthConfig) (req : HttpRequest) : Bool :=
  match cfg.auth_password with
  | none => true
  | some pw => req.basic_auth == some (cfg.auth_username, pw)

/-- The gate as the specification describes it: the three checks in fixed
order with short-circuit on first failure. -/
def gateSpec {α : Type} (cfg : AuthConfig) (req : HttpRequest)
    (handler : α) : GateOutcome α :=
  if specIpAllowed cfg req = false then .ipDenied
  else if specTokenOk cfg req = false then .tokenDenied
  else if specCredsOk cfg req = false then .authRequired
  else .handled handler

/-! ## Table health of the relational aggregator (src/app.py lines 809-831) -/

/-- The per-table counters the health computation reads (`or 0` defaults of
lines 813-815 folded in). -/
structure TableRow where
  inserts : Nat
  updates : Nat
  deletes : Nat
  live_tuples : Nat
  dead_tuples : Nat

/-- `total_ops` of line 815. -/
def total_ops (t : TableRow) : Nat := t.inserts + t.updates + t.deletes

/-- The bloat figure `(dead / live) * 100` of line 819, as an exact
rational (meaningful when `live_tuples` is positive, which is the only
branch the source computes it in). -/
def bloat_percentage (t : TableRow) : ℚ :=
  ((t.dead_tuples : ℚ) / (t.live_tuples : ℚ)) * 100

/-- The `health_status` strings of lines 818-829. -/
inductive HealthStatus where
  | good
  | fair
  | needsVacuum
  | emptyTable
deriving DecidableEq

/-- The health bucketing of lines 818-829: for a table with live rows,
strictly-greater-than comparisons at 20 and 10; for an empty table, `Empty`
only when it saw no operations. -/
def health_status (t : TableRow) : HealthStatus :=
  if 0 < t.live_tuples then
    if 20 < bloat_percentage t then .needsVacuum
    else if 10 < bloat_percentage t then .fair
    else .good
  else if total_ops t = 0 then .emptyTable
  else .good

/-- The bucketing exactly as the claim words it: Good when bloat < 10%,
Fair when bloat is 10-20%, NeedsVacuum when bloat > 20%, Empty when
live == 0 with no operations. -/
def claimedHealth (t : TableRow) : HealthStatus :=
  if t.live_tuples = 0 ∧ total_ops t = 0 then .emptyTable
  else if bloat_percentage t < 10 then .good
  else if bloat_percentage t ≤ 20 then .fair
  else .needsVacuum

/-- The bucketing the code implements, restated with inclusive lower
boundaries: Good up to and including 10%, Fair above 10% up to and
including 20%, NeedsVacuum above 20%. -/
def amendedHealth (t : TableRow) : HealthStatus :=
  if t.live_tuples = 0 then
    if total_ops t = 0 then .emptyTable else .good
  else if bloat_percentage t ≤ 10 then .good
  else if bloat_percentage t ≤ 20 then .fair
  else .needsVacuum

/-! ## The observations endpoint (src/app.py lines 1177-1366) -/

/-- The sort-column allow-list of lines 1191-1194. -/
def allowed_sort_columns : List String :=
  ["id", "job_id", "client_id", "stream_id", "observation_type",
   "object_class", "confidence", "ts_start", "ts_end", "created_at",
   "tracking_id", "detection_id"]

/-- ASCII lowering, Python `str.lower()` on the parameter values involved. -/
def lowerStr (s : String) : String := String.mk (s.toList.map Char.toLower)

/-- ASCII raising, Python `str.upper()` (line 1271). -/
def upperStr (s : String) : String := String.mk (s.toList.map Char.toUpper)

/-- The sanitized sort column (lines 1187, 1195-1196): the `sort` parameter
(default `created_at`) when allow-listed, else `created_at`. -/
def sanitized_sort (sortParam : Option String) : String :=
  if sortParam.getD "created_at" ∈ allowed_sort_columns then
    sortParam.getD "created_at"
  else "created_at"

/-- The sanitized sort direction (lines 1188, 1197-1198): the lowercased
`order` parameter (default `desc`) when `asc` or `desc`, else `desc`. -/
def sanitized_order (orderParam : Option String) : String :=
  if lowerStr (orderParam.getD "desc") = "asc"
      ∨ lowerStr (orderParam.getD "desc") = "desc" then
    lowerStr (orderParam.getD "desc")
  else "desc"

/-- The ORDER BY fragment interpolated into the data query at line 1271:
the sanitized column followed by the uppercased sanitized direction. -/
def order_by_clause (sortParam orderParam : Option String) : String :=
  sanitized_sort sortParam ++ " " ++ upperStr (sanitized_order orderParam)

/-- The limit clamp of line 1185: `min(parsed, 1000)` — an upper clamp
only. -/
def obs_limit (rawLimit : ℤ) : ℤ := min rawLimit 1000

/-- The page count of line 1356, `(total_count + limit - 1) // limit` with
Python's floor division; `none` models the ZeroDivisionError raised when
`limit` is 0. -/
def pagination_pages (total limit : ℤ) : Option ℤ :=
  if limit = 0 then none else some ((total + limit - 1).fdiv limit)

/-- Outcome of a request to `/api/observations` as far as pagination is
concerned: the listing response, or the structured 500 error. -/
inductive ObsOutcome where
  | listing (page limit total pages : ℤ)
  | serverError
deriving DecidableEq

/-- The pagination behaviour of the `/api/observations` handler: the limit
is clamped above to 1000 (line 1185), the `LIMIT 0` query itself succeeds
returning no rows, and the page-count division of line 1356 raises
ZeroDivisionError when the clamped limit is 0, which the handler at lines
1362-1366 converts into the structured error response.  (Database access is
abstracted as succeeding; `total` is the count the database returned.) -/
def api_observations_paging (page rawLimit total : ℤ) : ObsOutcome :=
  match pagination_pages total (obs_limit rawLimit) with
  | none => .serverError
  | some pages => .listing page (obs_limit rawLimit) total pages

/-- HTTP status of an observations outcome: 200 for a listing, 500 for the
error payload of line 1366. -/
def obsStatus : ObsOutcome → Nat
  | .listing _ _ _ _ => 200
  | .serverError => 500

/-! ## Claim-side predicates over the scan -/

/-- The effective count of a collected queue candidate as the specification
defines it: the container length for non-stream candidates; for a stream,
pending entries plus unread lag when it has consumer groups, else its total
length. -/
def claimEffectiveCount (q : QueueDetail) : Nat :=
  match q.stream_info with
  | none => q.length
  | some info =>
    if info.consumer_groups = [] then info.total_length
    else info.pending_count + info.available_unread

/-- Whether one collected detail trips the PEL-problem test of lines
479-493: a stream entry one of whose groups' records has a positive pending
count and an over-30-second oldest age. -/
def detailPelProblem (q : QueueDetail) : Bool :=
  match q.qtype, q.stream_info with
  | .streamQ, some info => info.pel_details.any pelDetailProblem
  | _, _ => false

/-- A consumer group with a positive pending count whose oldest pending
entry is strictly older than 30000 milliseconds — the store-level condition
the claim about `pelProblemDetected` quantifies over. -/
def groupOldPel (g : ConsumerGroup) : Prop :=
  0 < g.pending ∧ ∃ a, g.pendingAgesMs.head? = some a ∧ 30000 < a

/-- Some inspected key is a stream one of whose consumer groups has a
positive pending count older than 30000 ms. -/
def storePelProblem (st : Store) : Prop :=
  ∃ k ∈ inspectedKeys st, ∃ sd, st.lookup k = some (.streamVal sd) ∧
    ∃ g ∈ sd.groups, groupOldPel g

/-! ## Concrete stores and requests used by the claims -/

/-- The store of the end-to-end claim: one list key `queue:jobs` of length
7, and one stream key `events` of length 3 with one consumer group of lag 2
and one pending entry of age 5000 ms. -/
def c1Store : Store :=
  ⟨[("queue:jobs", .listVal 7),
    ("events", .streamVal ⟨3, [⟨"workers", 2, 1, 5000, [5000]⟩]⟩)], 100⟩

/-- A store with a single matching stream key of length 3 and no consumer
groups. -/
def c4Store : Store := ⟨[("queue:snaps", .streamVal ⟨3, []⟩)], 0⟩

/-- A store with one matching stream whose single group has one pending
entry of age exactly 30000 ms — the boundary of the PEL-problem test. -/
def c5BoundaryStore : Store :=
  ⟨[("queue:events", .streamVal ⟨5, [⟨"g1", 0, 1, 30000, [30000]⟩]⟩)], 0⟩

/-- A store with a backlog of 5 list messages and an observed
`instantaneous_ops_per_sec` of 0. -/
def c7Store : Store := ⟨[("queue:jobs", .listVal 5)], 0⟩

/-- As `c7Store` but with a positive observed rate. -/
def c7WitnessStore : Store := ⟨[("queue:jobs", .listVal 5)], 2⟩

/-- A fully configured gate: username, password, one allowed IP and a
token. -/
def c8cfg : AuthConfig := ⟨"admin", some "pw", ["1.2.3.4"], some "tok"⟩

/-- A request from the allowed peer carrying the token and the basic-auth
credentials. -/
def c8req : HttpRequest :=
  ⟨none, some "1.2.3.4", some "tok", none, some ("admin", "pw")⟩

/-! ## Helper lemmas about the scan pipeline -/

/-- A key's contribution to the running total is the claim's effective
count of the detail recorded for it. -/
theorem claimEffectiveCount_inspect {k : String} {v : StoreValue} {n : Nat}
    {d : QueueDetail} (h : inspectKey k v = some (n, d)) :
    claimEffectiveCount d = n := by
  cases v with
  | listVal m =>
    by_cases hm : 0 < m <;> simp [inspectKey, hm] at h
    obtain ⟨h1, h2⟩ := h
    subst h1; subst h2; rfl
  | zsetVal m =>
    by_cases hm : 0 < m <;> simp [inspectKey, hm] at h
    obtain ⟨h1, h2⟩ := h
    subst h1; subst h2; rfl
  | setVal m =>
    by_cases hm : 0 < m <;> simp [inspectKey, hm] at h
    obtain ⟨h1, h2⟩ := h
    subst h1; subst h2; rfl
  | streamVal sd =>
    by_cases hc : 0 < sd.totalLength ∨ 0 < streamEffectiveCount sd <;>
      simp [inspectKey, hc] at h
    obtain ⟨h1, h2⟩ := h
    subst h1; subst h2
    cases hg : sd.groups with
    | nil =>
      simp [claimEffectiveCount, streamInfoOf, streamEffectiveCount, hg]
    | cons g gs =>
      simp [claimEffectiveCount, streamInfoOf, streamEffectiveCount, hg]
  | otherVal => simp [inspectKey] at h

/-- The accumulated total equals the sum of the claim's effective counts
over the accumulated details. -/
theorem processKeys_total (st : Store) (ks : List String) :
    (processKeys st ks).fst =
      ((processKeys st ks).snd.map claimEffectiveCount).sum := by
  induction ks with
  | nil => rfl
  | cons k ks ih =>
    simp only [processKeys]
    cases hb : (st.lookup k).bind (inspectKey k) with
    | none =>
      show (processKeys st ks).fst =
        ((processKeys st ks).snd.map claimEffectiveCount).sum
      exact ih
    | some nd =>
      obtain ⟨v, hv, hik⟩ := Option.bind_eq_some.mp hb
      have hik2 : inspectKey k v = some (nd.fst, nd.snd) := by rw [hik]
      have hck := @claimEffectiveCount_inspect k v nd.fst nd.snd hik2
      show nd.fst + (processKeys st ks).fst =
        ((nd.snd :: (processKeys st ks).snd).map claimEffectiveCount).sum
      rw [List.map_cons, List.sum_cons, ih, hck]

/-- Sums of a mapped function are preserved by the stable insertion. -/
theorem map_sum_insertDetail (f : QueueDetail → Nat) (x : QueueDetail)
    (l : List QueueDetail) :
    ((insertDetail x l).map f).sum = f x + (l.map f).sum := by
  induction l with
  | nil => simp [insertDetail]
  | cons y ys ih =>
    simp only [insertDetail]
    split
    · simp
    · simp [ih]; omega

/-- Sums of a mapped function are preserved by the stable sort. -/
theorem map_sum_sortDetails (f : QueueDetail → Nat) (l : List QueueDetail) :
    ((sortDetails l).map f).sum = (l.map f).sum := by
  induction l with
  | nil => rfl
  | cons x xs ih => simp [sortDetails, map_sum_insertDetail, ih]

/-- Membership is preserved by the stable insertion. -/
theorem mem_insertDetail {x d : QueueDetail} {l : List QueueDetail} :
    d ∈ insertDetail x l ↔ d = x ∨ d ∈ l := by
  induction l with
  | nil => simp [insertDetail]
  | cons y ys ih =>
    simp only [insertDetail]
    split
    · simp
    · simp [ih]; tauto

/-- Membership is preserved by the stable sort. -/
theorem mem_sortDetails {d : QueueDetail} {l : List QueueDetail} :
    d ∈ sortDetails l ↔ d ∈ l := by
  induction l with
  | nil => simp [sortDetails]
  | cons x xs ih => simp [sortDetails, mem_insertDetail, ih]

/-- `any` is preserved by the stable insertion. -/
theorem any_insertDetail (f : QueueDetail → Bool) (x : QueueDetail)
    (l : List QueueDetail) :
    (insertDetail x l).any f = (f x || l.any f) := by
  induction l with
  | nil => simp [insertDetail]
  | cons y ys ih =>
    simp only [insertDetail]
    split
    · simp
    · simp [ih]
      cases f x <;> cases f y <;> simp

/-- `any` is preserved by the stable sort. -/
theorem any_sortDetails (f : QueueDetail → Bool) (l : List QueueDetail) :
    (sortDetails l).any f = l.any f := by
  induction l with
  | nil => rfl
  | cons x xs ih => simp [sortDetails, any_insertDetail, ih]

/-- The detection flag accumulated by the statistics loop is `any` of the
per-detail problem test. -/
theorem pelStats_detected (l : List QueueDetail) :
    (pelStats l).pel_problem_detected = l.any detailPelProblem := by
  induction l with
  | nil => rfl
  | cons q qs ih =>
    rcases q with ⟨nm, len, qt, si⟩
    cases qt <;> cases si <;> simp [pelStats, detailPelProblem, ih]

/-- Exactly the details produced by inspecting a listed key are
collected. -/
theorem mem_processKeys {st : Store} {ks : List String} {d : QueueDetail} :
    d ∈ (processKeys st ks).snd ↔
      ∃ k ∈ ks, ∃ n, (st.lookup k).bind (inspectKey k) = some (n, d) := by
  induction ks with
  | nil => simp [processKeys]
  | cons k ks ih =>
    simp only [processKeys]
    cases hb : (st.lookup k).bind (inspectKey k) with
    | none =>
      show d ∈ (processKeys st ks).snd ↔ _
      rw [ih]
      constructor
      · rintro ⟨k1, hk1, hrest⟩
        exact ⟨k1, List.mem_cons_of_mem k hk1, hrest⟩
      · rintro ⟨k1, hk1, n1, hn1⟩
        rcases List.mem_cons.mp hk1 with h1 | h1
        · subst h1; rw [hb] at hn1; cases hn1
        · exact ⟨k1, h1, n1, hn1⟩
    | some nd =>
      show d ∈ nd.snd :: (processKeys st ks).snd ↔ _
      rw [List.mem_cons, ih]
      constructor
      · rintro (hd | ⟨k1, hk1, hrest⟩)
        · subst hd
          exact ⟨k, List.mem_cons_self k ks, nd.fst, by rw [hb]⟩
        · exact ⟨k1, List.mem_cons_of_mem k hk1, hrest⟩
      · rintro ⟨k1, hk1, n1, hn1⟩
        rcases List.mem_cons.mp hk1 with h1 | h1
        · subst h1; rw [hb] at hn1
          injection hn1 with hn1
          left
          exact (congrArg Prod.snd hn1).symm
        · right; exact ⟨k1, h1, n1, hn1⟩

/-- The per-group record trips the problem test exactly when the group has
a positive pending count and an oldest pending age over 30000 ms (the
30-second comparison on the float `age_ms / 1000` is exact). -/
theorem pelDetailProblem_mk (g : ConsumerGroup) :
    pelDetailProblem (mkPelDetail g) = true ↔ groupOldPel g := by
  rcases g with ⟨nm, lag, pend, sumAge, ages⟩
  cases ages with
  | nil =>
    simp only [pelDetailProblem, mkPelDetail, pelDetailAgeSeconds, groupOldPel]
    norm_num
    intro _ x h
    cases h
  | cons a as =>
    simp only [pelDetailProblem, mkPelDetail, pelDetailAgeSeconds, groupOldPel,
      Option.getD_some, Bool.and_eq_true, decide_eq_true_eq, List.head?_cons,
      Option.some.injEq]
    constructor
    · rintro ⟨hp, ha⟩
      refine ⟨hp, a, rfl, ?_⟩
      have h1000 : (0 : ℚ) < 1000 := by norm_num
      rw [lt_div_iff₀ h1000] at ha
      have : (30000 : ℚ) < (a : ℚ) := by linarith
      exact_mod_cast this
    · rintro ⟨hp, a1, ha1, ha⟩
      subst ha1
      refine ⟨hp, ?_⟩
      have h1000 : (0 : ℚ) < 1000 := by norm_num
      rw [lt_div_iff₀ h1000]
      have : (30000 : ℚ) < (a : ℚ) := by exact_mod_cast ha
      linarith

/-- Characterization of the per-detail problem test. -/
theorem detailPelProblem_eq {d : QueueDetail} :
    detailPelProblem d = true ↔
      d.qtype = .streamQ ∧ ∃ info, d.stream_info = some info ∧
        info.pel_details.any pelDetailProblem = true := by
  rcases d with ⟨nm, len, qt, si⟩
  cases qt <;> cases si <;> simp [detailPelProblem]

/-- A collected detail carrying stream information comes from a stream
value, with the recorded info and effective count. -/
theorem inspectKey_stream {k : String} {v : StoreValue} {n : Nat}
    {d : QueueDetail} {info : StreamInfo}
    (h : inspectKey k v = some (n, d)) (hinfo : d.stream_info = some info) :
    ∃ sd, v = .streamVal sd ∧ info = streamInfoOf sd := by
  cases v with
  | listVal m =>
    by_cases hm : 0 < m <;> simp [inspectKey, hm] at h
    rw [← h.2] at hinfo; cases hinfo
  | zsetVal m =>
    by_cases hm : 0 < m <;> simp [inspectKey, hm] at h
    rw [← h.2] at hinfo; cases hinfo
  | setVal m =>
    by_cases hm : 0 < m <;> simp [inspectKey, hm] at h
    rw [← h.2] at hinfo; cases hinfo
  | streamVal sd =>
    by_cases hc : 0 < sd.totalLength ∨ 0 < streamEffectiveCount sd <;>
      simp [inspectKey, hc] at h
    rw [← h.2] at hinfo
    injection hinfo with hinfo
    exact ⟨sd, rfl, hinfo.symm⟩
  | otherVal => simp [inspectKey] at h

/-- A group's pending count keeps the stream's effective count positive. -/
theorem streamEffective_pos {sd : StreamData} {g : ConsumerGroup}
    (hg : g ∈ sd.groups) (hp : 0 < g.pending) :
    0 < streamEffectiveCount sd := by
  have hlen : 0 < ((streamInfoOf sd).consumer_groups).length := by
    simp only [streamInfoOf, List.length_map]
    exact List.length_pos.mpr (List.ne_nil_of_mem hg)
  rw [streamEffectiveCount, if_pos hlen]
  have hmem : g.pending ∈ sd.groups.map ConsumerGroup.pending :=
    List.mem_map_of_mem ConsumerGroup.pending hg
  have hle : g.pending ≤ (sd.groups.map ConsumerGroup.pending).sum :=
    List.single_le_sum (fun x _ => Nat.zero_le x) g.pending hmem
  have : 0 < (streamInfoOf sd).pending_count := by
    simp only [streamInfoOf]
    omega
  omega

/-- The scan's detection flag is exactly the store-level PEL condition over
the inspected keys. -/
theorem scanDetected_iff (st : Store) :
    (scanCompute st).pel_problem_detected = true ↔ storePelProblem st := by
  show (pelStats (sortDetails
      (processKeys st (inspectedKeys st)).snd)).pel_problem_detected = true ↔ _
  rw [pelStats_detected, any_sortDetails, List.any_eq_true]
  constructor
  · rintro ⟨d, hd, hprob⟩
    obtain ⟨k, hk, n, hb⟩ := mem_processKeys.mp hd
    obtain ⟨v, hv, hik⟩ := Option.bind_eq_some.mp hb
    obtain ⟨hty, info, hinfo, hany⟩ := detailPelProblem_eq.mp hprob
    obtain ⟨sd, hvsd, hieq⟩ := inspectKey_stream hik hinfo
    subst hvsd
    rw [List.any_eq_true] at hany
    obtain ⟨pd, hpd, hp⟩ := hany
    rw [hieq] at hpd
    simp only [streamInfoOf, List.mem_map] at hpd
    obtain ⟨g, hg, hpg⟩ := hpd
    subst hpg
    exact ⟨k, hk, sd, hv, g, hg, (pelDetailProblem_mk g).mp hp⟩
  · rintro ⟨k, hk, sd, hv, g, hg, hgp⟩
    have heff : 0 < streamEffectiveCount sd := streamEffective_pos hg hgp.1
    have hik : inspectKey k (.streamVal sd) =
        some (streamEffectiveCount sd,
          ⟨k, streamEffectiveCount sd, .streamQ, some (streamInfoOf sd)⟩) := by
      rw [inspectKey, if_pos (Or.inr heff)]
    refine ⟨⟨k, streamEffectiveCount sd, .streamQ, some (streamInfoOf sd)⟩,
      mem_processKeys.mpr ⟨k, hk, streamEffectiveCount sd, ?_⟩, ?_⟩
    · rw [hv, Option.some_bind, hik]
    · rw [detailPelProblem_eq]
      refine ⟨rfl, streamInfoOf sd, rfl, ?_⟩
      rw [List.any_eq_true]
      refine ⟨mkPelDetail g, ?_, (pelDetailProblem_mk g).mpr hgp⟩
      simp only [streamInfoOf, List.mem_map]
      exact ⟨g, hg, rfl⟩

/-! ## The claims -/

/-- C1, counterexample.  The claim asserts that against the store of the
end-to-end scenario (`c1Store`), the queues section of `GET /api/valkey`
lists both keys with `totalMessages = 10` and a clear PEL indicator.  It
does not: the scan returns the error payload (`get_queue_info_with_timeout`
raises UnboundLocalError at its completion log), and the stream key
`events` matches no queue pattern in the first place. -/
theorem c1_valkey_endtoend_counterexample :
    ¬ ((get_queue_info_with_timeout c1Store).total_messages_in_queues =
          CountValue.count 10
        ∧ "queue:jobs" ∈ (get_queue_info_with_timeout c1Store).queue_details.map
            QueueDetail.name
        ∧ "events" ∈ (get_queue_info_with_timeout c1Store).queue_details.map
            QueueDetail.name
        ∧ (get_queue_info_with_timeout c1Store).pel_problem_indicator =
            some false) := by
  intro h
  exact absurd h.1 (by decide)

/-- C1, amended.  Against the end-to-end store, the queues section is the
error payload (the completion log at line 524 reads
`total_undelivered_messages` before its assignment at line 531, and the
handler at line 588 converts the UnboundLocalError into the error
sentinel); moreover the stream key `events` matches none of the queue glob
patterns, so the scan computation inspects only `queue:jobs`: its details
list exactly `queue:jobs`, `totalMessages` is 7, and `pelProblemDetected`
is false. -/
theorem c1_valkey_endtoend_amended :
    get_queue_info_with_timeout c1Store = errorPayload
    ∧ (scanCompute c1Store).queue_details.map QueueDetail.name = ["queue:jobs"]
    ∧ (scanCompute c1Store).total_messages = 7
    ∧ (scanCompute c1Store).pel_problem_detected = false :=
  ⟨rfl, by decide, by decide, by decide⟩

/-- C2.  For every store, the scan's accumulated `total_messages` equals
the sum, over all collected queue candidates, of the candidate's effective
count as the specification defines it: container length for list, set and
sorted-set candidates; pending entries plus unread lag for a stream with
consumer groups; the stream's total length for a stream without. -/
theorem c2_total_messages_invariant (st : Store) :
    (scanCompute st).total_messages =
      ((scanCompute st).queue_details.map claimEffectiveCount).sum := by
  show (processKeys st (inspectedKeys st)).fst =
    ((sortDetails (processKeys st (inspectedKeys st)).snd).map
      claimEffectiveCount).sum
  rw [map_sum_sortDetails]
  exact processKeys_total st (inspectedKeys st)

/-- C5.  For every store, the scan's `pelProblemDetected` flag is true
exactly when some inspected stream has a consumer group with a positive
pending count whose oldest pending entry is strictly older than 30000 ms;
and at the boundary — one pending entry of age exactly 30000 ms — the flag
is false (the comparison is exclusive). -/
theorem c5_pel_problem_iff :
    (∀ st : Store,
      ((scanCompute st).pel_problem_detected = true ↔ storePelProblem st))
    ∧ (scanCompute c5BoundaryStore).pel_problem_detected = false := by
  refine ⟨scanDetected_iff, ?_⟩
  cases hb : (scanCompute c5BoundaryStore).pel_problem_detected with
  | false => rfl
  | true =>
    exfalso
    obtain ⟨k, hk, sd, hv, g, hg, hgp⟩ := (scanDetected_iff c5BoundaryStore).mp hb
    have hik : inspectedKeys c5BoundaryStore = ["queue:events"] := by decide
    rw [hik] at hk
    simp only [List.mem_singleton] at hk
    subst hk
    have hv2 : c5BoundaryStore.lookup "queue:events" =
        some (.streamVal ⟨5, [⟨"g1", 0, 1, 30000, [30000]⟩]⟩) := by decide
    rw [hv2] at hv
    injection hv with hv
    injection hv with hv
    rw [← hv] at hg
    simp only [List.mem_singleton] at hg
    subst hg
    obtain ⟨-, a, ha, hlt⟩ := hgp
    injection ha with ha
    omega

/-- C4, counterexample.  The claim asserts that for a stream candidate with
no consumer groups, the recorded pending count equals the stream's total
length.  Against a store with a single group-less stream of length 3, the
collected candidate records a pending count of 0, not 3. -/
theorem c4_stream_no_groups_counterexample :
    ¬ (∀ q ∈ (scanCompute c4Store).queue_details,
        q.stream_info.map StreamInfo.pending_count =
          q.stream_info.map StreamInfo.total_length) := by
  decide

/-- C4, amended.  For a stream with no consumer groups, the candidate's
effective count equals the stream's total length, but its recorded pending
count (and unread figure) is 0: the treat-everything-as-pending assignment
of lines 434-437 sits in an exception handler that an empty group list does
not trigger. -/
theorem c4_stream_no_groups_amended (sd : StreamData) (h : sd.groups = []) :
    streamEffectiveCount sd = sd.totalLength
    ∧ (streamInfoOf sd).pending_count = 0
    ∧ (streamInfoOf sd).available_unread = 0 := by
  rcases sd with ⟨len, gs⟩
  simp only at h
  subst h
  refine ⟨?_, rfl, rfl⟩
  rw [streamEffectiveCount]
  rfl

/-- Witness for C4: the amended statement at the concrete group-less stream
of length 3. -/
theorem c4_stream_no_groups_witness :
    (⟨3, []⟩ : StreamData).groups = []
    ∧ streamEffectiveCount ⟨3, []⟩ = 3
    ∧ (streamInfoOf ⟨3, []⟩).pending_count = 0 :=
  ⟨rfl, (c4_stream_no_groups_amended ⟨3, []⟩ rfl).1,
    (c4_stream_no_groups_amended ⟨3, []⟩ rfl).2.1⟩

/-- C7, counterexample.  The claim asserts the estimate is a formatted
duration (not "N/A") whenever `totalMessages > 0`, even at an observed rate
of 0.  Against a store with 5 queued messages and rate 0, the scan leaves
the estimate at "N/A": the `max(1, ...)` floor sits inside an
`if ops_per_sec > 0` (line 502) that the zero rate never enters. -/
theorem c7_estimated_time_counterexample :
    ¬ (0 < (scanCompute c7Store).total_messages →
        (scanCompute c7Store).estimated_time ≠ EstTime.notAvailable) := by
  intro h
  exact h (by decide) (by decide)

/-- C7, amended.  When the scan ends with `totalMessages > 0` and the
observed `instantaneous_ops_per_sec` is positive, the estimate equals
`totalMessages / max(1, ops * 0.5)` formatted into
seconds/minutes/hours; when the observed rate is 0 the estimate stays
"N/A". -/
theorem c7_estimated_time_amended :
    (∀ st : Store, 0 < (scanCompute st).total_messages →
      0 < st.instantaneousOps →
      (scanCompute st).estimated_time =
        formatDuration (((scanCompute st).total_messages : ℚ) /
          max 1 ((st.instantaneousOps : ℚ) / 2)))
    ∧ (∀ st : Store, st.instantaneousOps = 0 →
        (scanCompute st).estimated_time = EstTime.notAvailable) := by
  constructor
  · intro st ht hops
    have hshape : (scanCompute st).estimated_time =
        if 0 < (scanCompute st).total_messages then
          if 0 < st.instantaneousOps then
            formatDuration (((scanCompute st).total_messages : ℚ) /
              max 1 ((st.instantaneousOps : ℚ) / 2))
          else .notAvailable
        else .notAvailable := rfl
    rw [hshape, if_pos ht, if_pos hops]
  · intro st h
    have hshape : (scanCompute st).estimated_time =
        if 0 < (scanCompute st).total_messages then
          if 0 < st.instantaneousOps then
            formatDuration (((scanCompute st).total_messages : ℚ) /
              max 1 ((st.instantaneousOps : ℚ) / 2))
          else .notAvailable
        else .notAvailable := rfl
    rw [hshape, h]
    simp

/-- Witness for C7: at a store with 5 queued messages and rate 2, the
amended statement's hypotheses hold and the estimate takes the formatted
form. -/
theorem c7_estimated_time_witness :
    0 < (scanCompute c7WitnessStore).total_messages
    ∧ 0 < c7WitnessStore.instantaneousOps
    ∧ (scanCompute c7WitnessStore).estimated_time =
        formatDuration (((scanCompute c7WitnessStore).total_messages : ℚ) /
          max 1 ((c7WitnessStore.instantaneousOps : ℚ) / 2)) :=
  ⟨by decide, by decide,
    c7_estimated_time_amended.1 c7WitnessStore (by decide) (by decide)⟩

/-- C6, counterexample.  At `dead = 10, live = 100` the bloat figure is
exactly 10%: the code's strict `elif bloat_ratio > 10` gives `Good`, while
the claim's bucketing (Good strictly below 10%, Fair for 10-20%) gives
`Fair`. -/
theorem c6_bloat_bucketing_counterexample :
    ¬ (health_status ⟨0, 0, 0, 100, 10⟩ = claimedHealth ⟨0, 0, 0, 100, 10⟩) := by
  have h1 : health_status ⟨0, 0, 0, 100, 10⟩ = HealthStatus.good := by
    norm_num [health_status, bloat_percentage]
  have h2 : claimedHealth ⟨0, 0, 0, 100, 10⟩ = HealthStatus.fair := by
    norm_num [claimedHealth, bloat_percentage, total_ops]
  rw [h1, h2]
  intro h
  cases h

/-- C6, amended.  The health status is bucketed from the bloat figure
`dead / live * 100` with inclusive lower boundaries: Good for bloat at or
below 10%, Fair above 10% and at or below 20%, NeedsVacuum above 20%, and
Empty exactly when `live = 0` with no insert/update/delete operations; in
particular `dead = 25, live = 100` yields NeedsVacuum and
`dead = 5, live = 100` yields Good. -/
theorem c6_bloat_bucketing_amended :
    (∀ t : TableRow, health_status t = amendedHealth t)
    ∧ health_status ⟨0, 0, 0, 100, 25⟩ = HealthStatus.needsVacuum
    ∧ health_status ⟨0, 0, 0, 100, 5⟩ = HealthStatus.good := by
  refine ⟨?_, by norm_num [health_status, bloat_percentage],
    by norm_num [health_status, bloat_percentage]⟩
  intro t
  unfold health_status amendedHealth
  rcases Nat.eq_zero_or_pos t.live_tuples with h | h
  · simp [h]
  · rw [if_pos h, if_neg (by omega : ¬ t.live_tuples = 0)]
    by_cases h20 : 20 < bloat_percentage t
    · rw [if_pos h20, if_neg (by linarith), if_neg (by linarith)]
    · rw [if_neg h20]
      by_cases h10 : 10 < bloat_percentage t
      · rw [if_pos h10, if_neg (by linarith), if_pos (by linarith)]
      · rw [if_neg h10, if_pos (by linarith)]

/-- C8.  The gate runs its checks in the fixed order the specification
gives — IP allow-list (an empty list passes any IP; the address checked is
the first entry of the forwarded-for header when present, else the peer
address; failure is a 403), then the query/bearer security token (no
configured token passes; failure a 403), then basic auth (no configured
password passes; failure a 401 carrying the WWW-Authenticate challenge) —
short-circuiting before the wrapped handler on the first failure.  Stated
as equality with the gate built from the specification's wording, for
configurations without a blank allow-list entry and requests whose peer
address is already a single trimmed token (peer addresses from the
transport layer always are). -/
theorem c8_gate_fixed_order (α : Type) (cfg : AuthConfig) (req : HttpRequest)
    (handler : α) (hblank : "" ∉ cfg.allowed_ips)
    (hpeer : ∀ s, req.remote_addr = some s →
      pyStripWs (firstCommaField s) = s) :
    requires_auth cfg req handler = gateSpec cfg req handler
    ∧ gateStatus (GateOutcome.ipDenied : GateOutcome α) = some (403, false)
    ∧ gateStatus (GateOutcome.tokenDenied : GateOutcome α) = some (403, false)
    ∧ gateStatus (GateOutcome.authRequired : GateOutcome α) = some (401, true) := by
  refine ⟨?_, rfl, rfl, rfl⟩
  have haddr : normalizedClientIp req = specCheckedAddress req := by
    unfold normalizedClientIp specCheckedAddress
    cases hf : req.forwarded_for with
    | some h =>
      by_cases hh : h = ""
      · subst hh
        have h0 : pyStripWs (firstCommaField "") = "" := by decide
        simp [h0]
      · simp [hh]
    | none =>
      cases hr : req.remote_addr with
      | none => rfl
      | some s =>
        have hs := hpeer s hr
        by_cases hse : s = "" <;> simp [hse, hs]
  have hip : check_ip_whitelist cfg req = specIpAllowed cfg req := by
    cases hips : cfg.allowed_ips with
    | nil => simp [check_ip_whitelist, specIpAllowed, hips]
    | cons ip0 ips =>
      rw [hips] at hblank
      have h0 : ¬ ip0 = "" := by
        intro h
        exact hblank (h ▸ List.mem_cons_self ip0 ips)
      have hall : ((ip0 :: ips).all fun ip => ip = "") = false := by
        simp [List.all_cons, h0]
      simp only [check_ip_whitelist, specIpAllowed, hips, hall,
        List.isEmpty_cons, Bool.false_or, Bool.or_false, if_neg,
        Bool.false_eq_true, not_false_eq_true, haddr]
  have htok : check_security_token cfg req = specTokenOk cfg req := rfl
  unfold requires_auth gateSpec
  rw [hip, htok]
  cases hsi : specIpAllowed cfg req with
  | false => simp
  | true =>
    simp only [Bool.true_eq_false, if_false]
    cases hst : specTokenOk cfg req with
    | false => simp
    | true =>
      simp only [Bool.true_eq_false, if_false]
      cases hap : cfg.auth_password with
      | none => simp [specCredsOk, hap]
      | some pw =>
        cases hba : req.basic_auth with
        | none => simp [specCredsOk, hap, hba]
        | some up =>
          rcases up with ⟨u, p⟩
          by_cases hu : u = cfg.auth_username <;>
            by_cases hp : p = pw <;>
            simp [specCredsOk, check_auth, hap, hba, hu, hp]

/-- Witness for C8: a fully configured gate, a request from the allowed
peer with the right token and credentials, and a trivial handler. -/
theorem c8_gate_fixed_order_witness :
    ("" ∉ c8cfg.allowed_ips)
    ∧ requires_auth c8cfg c8req (0 : Nat) = gateSpec c8cfg c8req 0 :=
  ⟨by decide,
    (c8_gate_fixed_order Nat c8cfg c8req 0 (by decide)
      (fun s hs => by injection hs with h; rw [← h]; decide)).1⟩

/-- C9.  For every request to `/api/observations`, the sanitized sort
column is always drawn from the fixed twelve-entry allow-list (it is either
the client's value or the `created_at` fallback), the sanitized direction
is always `asc` or `desc` (either the lowercased client value or the `desc`
fallback), and the ORDER BY fragment of the executed SQL is built from
exactly that pair — so client-supplied sort values cannot reach the SQL
text unvetted; in particular an injection attempt in either parameter falls
back to `created_at`/`desc`. -/
theorem c9_sort_allowlist :
    (∀ sortParam orderParam : Option String,
      sanitized_sort sortParam ∈ allowed_sort_columns
      ∧ (sanitized_order orderParam = "asc" ∨ sanitized_order orderParam = "desc")
      ∧ (sanitized_sort sortParam = sortParam.getD "created_at"
          ∨ sanitized_sort sortParam = "created_at")
      ∧ (sanitized_order orderParam = lowerStr (orderParam.getD "desc")
          ∨ sanitized_order orderParam = "desc")
      ∧ order_by_clause sortParam orderParam =
          sanitized_sort sortParam ++ " " ++ upperStr (sanitized_order orderParam))
    ∧ sanitized_sort (some "created_at; DROP TABLE observations") = "created_at"
    ∧ sanitized_order (some "descending") = "desc"
    ∧ allowed_sort_columns.length = 12 := by
  refine ⟨?_, by decide, by decide, by decide⟩
  intro sp op
  refine ⟨?_, ?_, ?_, ?_, rfl⟩
  · unfold sanitized_sort
    split
    · assumption
    · decide
  · unfold sanitized_order
    split
    · assumption
    · right; rfl
  · unfold sanitized_sort
    split
    · left; rfl
    · right; rfl
  · unfold sanitized_order
    split
    · left; rfl
    · right; rfl

/-- C10.  The `limit` parameter of `/api/observations` is clamped above to
1000 but not below: 5000 becomes 1000, while 0 and negative values pass
through, and a request whose limit parses to 0 makes the page-count
division `(total + limit - 1) // limit` raise ZeroDivisionError, so the
endpoint answers with the structured error payload and HTTP 500 instead of
a listing. -/
theorem c10_limit_zero_division :
    (∀ page total : ℤ,
      api_observations_paging page 0 total = ObsOutcome.serverError
      ∧ obsStatus (api_observations_paging page 0 total) = 500)
    ∧ obs_limit 5000 = 1000
    ∧ obs_limit 0 = 0
    ∧ obs_limit (-7) = -7 := by
  refine ⟨?_, by decide, by decide, by decide⟩
  intro page total
  have h : api_observations_paging page 0 total = ObsOutcome.serverError := by
    unfold api_observations_paging pagination_pages obs_limit
    norm_num
  exact ⟨h, by rw [h]; rfl⟩

end WebappSpec
